import Mathlib

/-!
Verification of the Vivatech planner core (src/models.rs, src/tools.rs).

The development shallowly embeds the date-extraction / urgency-classification
logic and the two agent tools.  Rust machine integers are modelled by Nat/Int
(all values in play are tiny); chrono::NaiveDate is modelled by a year/month/day
record together with the proleptic-Gregorian validity test and day numbering;
the two regular expressions of tools.rs are modelled by specialised matchers
implementing the regex crate's leftmost-first semantics for exactly those two
patterns (the character classes are taken over their ASCII subsets, which is
the subset the surrounding u32 parse accepts).
-/

namespace Vivatech

/-- Model of chrono::NaiveDate: a calendar date record.  Values are only ever
constructed through fromYmdOpt, which enforces validity. -/
structure NaiveDate where
  year : Int
  month : Nat
  day : Nat
deriving DecidableEq, Repr

/-- Proleptic-Gregorian leap-year test (as used by chrono). -/
def isLeapYear (y : Int) : Bool :=
  y % 4 == 0 && (y % 100 != 0 || y % 400 == 0)

/-- Number of days in a month of a given year; 0 for an out-of-range month. -/
def daysInMonth (y : Int) (m : Nat) : Nat :=
  match m with
  | 1 => 31
  | 2 => if isLeapYear y then 29 else 28
  | 3 => 31
  | 4 => 30
  | 5 => 31
  | 6 => 30
  | 7 => 31
  | 8 => 31
  | 9 => 30
  | 10 => 31
  | 11 => 30
  | 12 => 31
  | _ => 0

/-- chrono's representable year range for NaiveDate (MIN_YEAR and MAX_YEAR,
the arithmetic shifts of the i32 bounds by 13). -/
def chronoYearOk (y : Int) : Prop := -262144 ≤ y ∧ y ≤ 262143

instance (y : Int) : Decidable (chronoYearOk y) := by
  unfold chronoYearOk; infer_instance

/-- Model of chrono NaiveDate::from_ymd_opt: Some for a valid calendar date,
None otherwise (never clamps). -/
def fromYmdOpt (y : Int) (m d : Nat) : Option NaiveDate :=
  if chronoYearOk y ∧ 1 ≤ m ∧ m ≤ 12 ∧ 1 ≤ d ∧ d ≤ daysInMonth y m then
    some ⟨y, m, d⟩
  else
    none

/-- Day number of a date (days since 1970-01-01, the civil-days algorithm);
differences of this function model chrono's (a - b).num_days(). -/
def daysFromCivil (dt : NaiveDate) : Int :=
  let y : Int := if dt.month ≤ 2 then dt.year - 1 else dt.year
  let era : Int := Int.fdiv y 400
  let yoe : Nat := (y - era * 400).toNat
  let mp : Nat := if dt.month > 2 then dt.month - 3 else dt.month + 9
  let doy : Nat := (153 * mp + 2) / 5 + dt.day - 1
  let doe : Nat := yoe * 365 + yoe / 4 - yoe / 100 + doy
  era * 146097 + (doe : Int) - 719468

/-- Model of (event_date - current_date).num_days(): signed whole-day
difference between two dates. -/
def num_days (a b : NaiveDate) : Int :=
  daysFromCivil a - daysFromCivil b

/-! ## models.rs -/

/-- const VIVATECH_YEAR: i32 = 2025 -/
def VIVATECH_YEAR : Int := 2025

/-- const CURRENT_MONTH: u32 = 6 -/
def CURRENT_MONTH : Nat := 6

/-- const CURRENT_DAY: u32 = 11 -/
def CURRENT_DAY : Nat := 11

/-- enum ActionUrgency -/
inductive ActionUrgency where
  | Immediate
  | Soon
  | Normal
deriving DecidableEq, Repr

/-! ## The two regular expressions of tools.rs

Pattern A: (January|...|December)\s+(\d{1,2})
Pattern B: (\d{1,2})(?:st|nd|rd|th)?\s+(January|...|December)

They are embedded as specialised matchers implementing the regex crate's
leftmost-first match semantics for exactly these two patterns: match positions
are scanned left to right, the greedy \d{1,2} prefers two digits, the optional
ordinal suffix prefers to be present, and \s+ consumes a maximal whitespace
run (the token after it can never start with whitespace, so greediness never
needs to backtrack).  The classes \s and \d are taken over their ASCII
subsets; for \d this is exactly the subset on which the subsequent
str::parse::<u32> of the capture can succeed. -/

/-- The whitespace characters matched by \s (ASCII subset plus the Unicode
space characters, per the regex crate's Unicode \s class). -/
def isRegexSpace (c : Char) : Bool :=
  c.toNat == 0x09 || c.toNat == 0x0A || c.toNat == 0x0B || c.toNat == 0x0C ||
  c.toNat == 0x0D || c.toNat == 0x20 || c.toNat == 0x85 || c.toNat == 0xA0 ||
  c.toNat == 0x1680 || (0x2000 ≤ c.toNat && c.toNat ≤ 0x200A) ||
  c.toNat == 0x2028 || c.toNat == 0x2029 || c.toNat == 0x202F ||
  c.toNat == 0x205F || c.toNat == 0x3000

/-- ASCII decimal digit, the \d subset on which u32 parsing succeeds. -/
def isAsciiDigit (c : Char) : Bool :=
  '0' ≤ c && c ≤ '9'

/-- Drop a (possibly empty) maximal run of whitespace. -/
def dropSpaces : List Char → List Char
  | [] => []
  | c :: cs => if isRegexSpace c then dropSpaces cs else c :: cs

/-- Match \s+ : require at least one whitespace character and consume the
maximal run, returning the remainder. -/
def skipSpaces1 : List Char → Option (List Char)
  | [] => none
  | c :: cs => if isRegexSpace c then some (dropSpaces cs) else none

/-- Match a literal character sequence, returning the remainder on success. -/
def matchLit : List Char → List Char → Option (List Char)
  | [], s => some s
  | _ :: _, [] => none
  | l :: ls, c :: cs => if l = c then matchLit ls cs else none

/-- The twelve month-name alternatives, in the order they appear in both
regular expressions. -/
def monthNames : List String :=
  ["January", "February", "March", "April", "May", "June",
   "July", "August", "September", "October", "November", "December"]

/-- Match the month-name alternation at the head of the input (case-sensitive,
exactly as written in the two regexes).  No month name is a prefix of
another, so at most one alternative can match. -/
def matchMonthAt (s : List Char) : Option (String × List Char) :=
  monthNames.findSome? fun name =>
    (matchLit name.data s).map fun rest => (name, rest)

/-- Match \d{1,2} greedily at the head of the input, returning the captured
digit string and the remainder. -/
def takeDigits12 : List Char → Option (String × List Char)
  | [] => none
  | c1 :: rest =>
    if isAsciiDigit c1 then
      match rest with
      | c2 :: rest2 =>
        if isAsciiDigit c2 then some (⟨[c1, c2]⟩, rest2) else some (⟨[c1]⟩, rest)
      | [] => some (⟨[c1]⟩, [])
    else none

/-- Match pattern A anchored at the head of the input, returning the two
captures (month name, day digits). -/
def matchPatA (s : List Char) : Option (String × String) := do
  let (name, r1) ← matchMonthAt s
  let r2 ← skipSpaces1 r1
  let (ds, _) ← takeDigits12 r2
  pure (name, ds)

/-- regex.captures(text) for pattern A: captures of the leftmost match. -/
def capturesA : List Char → Option (String × String)
  | [] => none
  | c :: cs =>
    match matchPatA (c :: cs) with
    | some r => some r
    | none => capturesA cs

/-- Match the optional ordinal suffix (?:st|nd|rd|th) when present. -/
def matchOrdSuffix (s : List Char) : Option (List Char) :=
  [['s', 't'], ['n', 'd'], ['r', 'd'], ['t', 'h']].findSome? fun suf =>
    matchLit suf s

/-- Match \s+ followed by the month-name alternation, returning the month
capture. -/
def spacesThenMonth (s : List Char) : Option String := do
  let r ← skipSpaces1 s
  let (name, _) ← matchMonthAt r
  pure name

/-- The tail of pattern B after the day digits: the optional suffix is
preferred present (greedy ?), falling back to absent. -/
def afterDayDigits (s : List Char) : Option String :=
  match matchOrdSuffix s with
  | some s' =>
    match spacesThenMonth s' with
    | some m => some m
    | none => spacesThenMonth s
  | none => spacesThenMonth s

/-- Match pattern B anchored at the head of the input, returning the two
captures (day digits, month name); two digits are preferred over one. -/
def matchPatB : List Char → Option (String × String)
  | [] => none
  | c1 :: rest =>
    if isAsciiDigit c1 then
      match rest with
      | c2 :: rest2 =>
        if isAsciiDigit c2 then
          match afterDayDigits rest2 with
          | some m => some (⟨[c1, c2]⟩, m)
          | none =>
            match afterDayDigits rest with
            | some m => some (⟨[c1]⟩, m)
            | none => none
        else
          match afterDayDigits rest with
          | some m => some (⟨[c1]⟩, m)
          | none => none
      | [] => none
    else none

/-- regex.captures(text) for pattern B: captures of the leftmost match. -/
def capturesB : List Char → Option (String × String)
  | [] => none
  | c :: cs =>
    match matchPatB (c :: cs) with
    | some r => some r
    | none => capturesB cs

/-! ## Date extraction (tools.rs) -/

/-- ASCII lowercasing of one character. -/
def toLowerChar (c : Char) : Char :=
  if 'A' ≤ c ∧ c ≤ 'Z' then Char.ofNat (c.toNat + 32) else c

/-- Lowercase a string character by character (str::to_lowercase; its
non-ASCII special cases are irrelevant to the month tokens compared here,
which the regexes constrain to the twelve canonical names). -/
def lowercase (s : String) : String :=
  ⟨s.data.map toLowerChar⟩

/-- fn month_name_to_number: lowercase the token, map the twelve English
month names to their numbers. -/
def month_name_to_number (month : String) : Option Nat :=
  match lowercase month with
  | "january" => some 1
  | "february" => some 2
  | "march" => some 3
  | "april" => some 4
  | "may" => some 5
  | "june" => some 6
  | "july" => some 7
  | "august" => some 8
  | "september" => some 9
  | "october" => some 10
  | "november" => some 11
  | "december" => some 12
  | _ => none

/-- str::parse::<u32> on a captured day string: succeeds on a nonempty string
of ASCII digits whose value fits in 32 bits. -/
def parseU32 (s : String) : Option Nat :=
  if s.data ≠ [] ∧ s.data.all isAsciiDigit then
    let n := s.data.foldl (fun acc c => acc * 10 + (c.toNat - 48)) 0
    if n < 2 ^ 32 then some n else none
  else none

/-- fn extract_month_day_date: captures (month name, day digits) to a date of
the fixed year 2025. -/
def extract_month_day_date (month_str day_str : String) : Option NaiveDate := do
  let month_num ← month_name_to_number month_str
  let day ← parseU32 day_str
  fromYmdOpt 2025 month_num day

/-- fn extract_day_month_date: captures (day digits, month name) to a date of
the fixed year 2025. -/
def extract_day_month_date (day_str month_str : String) : Option NaiveDate := do
  let day ← parseU32 day_str
  let month_num ← month_name_to_number month_str
  fromYmdOpt 2025 month_num day

/-- fn extract_date_from_text: try pattern A first; if it has a match whose
captures yield a date, return it; otherwise (no match, or the captures fail
date construction) fall through to pattern B; same shape there; else None. -/
def extract_date_from_text (text : String) : Option NaiveDate :=
  match capturesA text.data with
  | some (month_str, day_str) =>
    match extract_month_day_date month_str day_str with
    | some date => some date
    | none =>
      match capturesB text.data with
      | some (day_str', month_str') => extract_day_month_date day_str' month_str'
      | none => none
  | none =>
    match capturesB text.data with
    | some (day_str', month_str') => extract_day_month_date day_str' month_str'
    | none => none

/-- fn analyze_event_urgency: classify an event text against the current
date. -/
def analyze_event_urgency (text : String) (current_date : NaiveDate) :
    ActionUrgency × String :=
  match extract_date_from_text text with
  | some event_date =>
    let days_until_event := num_days event_date current_date
    if days_until_event = 0 then
      (ActionUrgency.Immediate,
       "This event is happening TODAY - immediate action required!")
    else if days_until_event = 1 then
      (ActionUrgency.Soon,
       "This event is happening TOMORROW - plan accordingly.")
    else if days_until_event > 0 then
      (ActionUrgency.Normal,
       "This event is in " ++ toString days_until_event ++ " days - normal priority.")
    else
      (ActionUrgency.Normal, "This event has already passed.")
  | none =>
    (ActionUrgency.Normal, "No specific date found - treating as normal priority.")

/-! ## JSON values and the serde deserializers of models.rs

serde_json distinguishes integer literals from decimal/exponent literals: an
integer deserializes into u32 when in range, while a decimal literal never
does; f32 accepts either.  The numeric payload of a non-integer literal is
kept as its decimal mantissa/exponent; no claim observes the f32 value, so
the float conversion itself is not modelled. -/

/-- A JSON numeric literal. -/
inductive JNum where
  | int (n : Int)
  | dec (mant exp : Int)
deriving DecidableEq, Repr

/-- JSON values (objects keep field order, as serde_json sees them). -/
inductive Json where
  | null
  | bool (b : Bool)
  | num (n : JNum)
  | str (s : String)
  | arr (elems : List Json)
  | obj (fields : List (String × Json))

/-- struct VivatechSource; score (an f32 in the source) is carried as its
JSON numeric literal, with serde default 0.0. -/
structure VivatechSource where
  id : String
  source_table : String
  score : JNum
  text_chunk : String

/-- struct VivatechMetadata -/
structure VivatechMetadata where
  search_mode : String
  sources_found : Nat

/-- struct VivatechQueryResponse -/
structure VivatechQueryResponse where
  answer : String
  sources : List VivatechSource
  metadata : VivatechMetadata

/-- struct TimelinessResult -/
structure TimelinessResult where
  source_id : String
  urgency : ActionUrgency
  description : String

/-- Look a field up by name in a JSON object (first occurrence; the objects
considered are duplicate-free, as serde rejects duplicate fields). -/
def getField (fields : List (String × Json)) (name : String) : Option Json :=
  match fields with
  | [] => none
  | (k, v) :: rest => if k = name then some v else getField rest name

/-- A required struct field: missing means a deserialization error. -/
def expectField (fields : List (String × Json)) (name : String) :
    Except String Json :=
  match getField fields name with
  | some v => Except.ok v
  | none => Except.error ("missing field " ++ name)

/-- Deserialize a String field. -/
def deserString : Json → Except String String
  | Json.str s => Except.ok s
  | _ => Except.error "invalid type: expected a string"

/-- Deserialize an f32 field: any JSON number is accepted. -/
def deserF32 : Json → Except String JNum
  | Json.num n => Except.ok n
  | _ => Except.error "invalid type: expected a number"

/-- Deserialize a u32 field: only an integer literal in 32-bit range. -/
def deserU32 : Json → Except String Nat
  | Json.num (JNum.int n) =>
    if 0 ≤ n ∧ n < 2 ^ 32 then Except.ok n.toNat
    else Except.error "invalid value: integer out of range of u32"
  | Json.num (JNum.dec _ _) => Except.error "invalid type: floating point"
  | _ => Except.error "invalid type: expected a number"

/-- Derived Deserialize for VivatechSource: id and text_chunk required,
source_table and score take serde defaults when absent, unknown fields
ignored. -/
def deserVivatechSource : Json → Except String VivatechSource
  | Json.obj fields => do
    let id ← deserString (← expectField fields "id")
    let source_table ←
      match getField fields "source_table" with
      | some v => deserString v
      | none => Except.ok ""
    let score ←
      match getField fields "score" with
      | some v => deserF32 v
      | none => Except.ok (JNum.int 0)
    let text_chunk ← deserString (← expectField fields "text_chunk")
    Except.ok ⟨id, source_table, score, text_chunk⟩
  | _ => Except.error "invalid type: expected struct VivatechSource"

/-- Deserialize the elements of a JSON array one by one, in order (serde's
sequence visitor). -/
def deserSourceList : List Json → Except String (List VivatechSource)
  | [] => Except.ok []
  | j :: js =>
    match deserVivatechSource j with
    | Except.error e => Except.error e
    | Except.ok s =>
      match deserSourceList js with
      | Except.error e => Except.error e
      | Except.ok rest => Except.ok (s :: rest)

/-- Deserialize Vec of VivatechSource, element order preserved. -/
def deserSources : Json → Except String (List VivatechSource)
  | Json.arr elems => deserSourceList elems
  | _ => Except.error "invalid type: expected a sequence"

/-- Derived Deserialize for VivatechMetadata: both fields required. -/
def deserVivatechMetadata : Json → Except String VivatechMetadata
  | Json.obj fields => do
    let search_mode ← deserString (← expectField fields "search_mode")
    let sources_found ← deserU32 (← expectField fields "sources_found")
    Except.ok ⟨search_mode, sources_found⟩
  | _ => Except.error "invalid type: expected struct VivatechMetadata"

/-- Derived Deserialize for VivatechQueryResponse: answer, sources and
metadata all required (answer and metadata are dead code but still parsed). -/
def deserVivatechQueryResponse : Json → Except String VivatechQueryResponse
  | Json.obj fields => do
    let answer ← deserString (← expectField fields "answer")
    let sources ← deserSources (← expectField fields "sources")
    let metadata ← deserVivatechMetadata (← expectField fields "metadata")
    Except.ok ⟨answer, sources, metadata⟩
  | _ => Except.error "invalid type: expected struct VivatechQueryResponse"

/-! ## Reference date (models.rs) -/

/-- Leading ASCII digits and the remainder of a character list. -/
def splitDigits : List Char → List Char × List Char
  | [] => ([], [])
  | c :: cs =>
    if isAsciiDigit c then
      let (ds, rest) := splitDigits cs
      (c :: ds, rest)
    else ([], c :: cs)

/-- Numeric value of a digit string. -/
def digitsToNat (ds : List Char) : Nat :=
  ds.foldl (fun acc c => acc * 10 + (c.toNat - 48)) 0

/-- scan::number(s, 1, maxWidth) of chrono: greedily consume up to maxWidth
leading ASCII digits, requiring at least one, returning the value and the
remainder (digits beyond the cap are left unconsumed, to be matched — and in
practice rejected — by the next format item). -/
def scanNumber (maxWidth : Nat) (s : List Char) : Option (Nat × List Char) :=
  let (ds, rest) := splitDigits s
  let taken := ds.take maxWidth
  if taken = [] then none
  else some (digitsToNat taken, ds.drop maxWidth ++ rest)

/-- The %Y item of chrono's parser: leading whitespace is trimmed (trim_left
strips the same Unicode White_Space set the regex \s class matches); an
explicit '-' or '+' sign admits unlimited digits, while an unsigned year is
capped at the item width 4, any further digits failing the following literal
match instead.  Values too large for a date are rejected by the year-range
check of date construction, which subsumes chrono's numeric-overflow
error. -/
def parseYearItem (s : List Char) : Option (Int × List Char) :=
  let t := dropSpaces s
  match t with
  | '-' :: rest =>
    (scanNumber rest.length rest).map fun p => (-(p.1 : Int), p.2)
  | '+' :: rest =>
    (scanNumber rest.length rest).map fun p => ((p.1 : Int), p.2)
  | _ =>
    (scanNumber 4 t).map fun p => ((p.1 : Int), p.2)

/-- An unsigned numeric item of width 2 (%m, %d): leading whitespace is
trimmed, then one or two digits are consumed. -/
def parseNum2 (s : List Char) : Option (Nat × List Char) :=
  scanNumber 2 (dropSpaces s)

/-- Model of chrono NaiveDate::parse_from_str(s, "%Y-%m-%d"): the signed
width-4 %Y item, a literal '-', %m, a literal '-', %d, with no trailing
input allowed; the resulting triple must form a valid in-range date. -/
def parseYmd (s : String) : Option NaiveDate := do
  let (y, r1) ← parseYearItem s.data
  let r2 ← matchLit ['-'] r1
  let (m, r3) ← parseNum2 r2
  let r4 ← matchLit ['-'] r3
  let (d, r5) ← parseNum2 r4
  if r5 = [] then fromYmdOpt y m d else none

/-- The built-in default reference date, June 11, 2025. -/
def defaultConferenceDate : NaiveDate :=
  ⟨VIVATECH_YEAR, CURRENT_MONTH, CURRENT_DAY⟩

/-- The .expect("June 11, 2025 is a valid date") in the source never fires:
the built-in default constructs successfully. -/
theorem defaultConferenceDate_valid :
    fromYmdOpt VIVATECH_YEAR CURRENT_MONTH CURRENT_DAY =
      some defaultConferenceDate := by
  decide

/-- fn get_current_conference_date, with the CONFERENCE_DATE environment
variable made explicit: the override when it parses as %Y-%m-%d, the
built-in default otherwise. -/
def get_current_conference_date (envConferenceDate : Option String) : NaiveDate :=
  match envConferenceDate with
  | some date_str =>
    match parseYmd date_str with
    | some date => date
    | none => defaultConferenceDate
  | none => defaultConferenceDate

/-! ## The two tools (tools.rs) -/

/-- The error type of the assess_event_timeliness tool (never produced). -/
structure DateParseError where

/-- impl Tool for AssessTimeliness, fn call: classify each event's text
against the process reference date, one result per event in input order.
The Rust signature is Result of Vec of TimelinessResult with error
DateParseError; the body always returns Ok. -/
def assess_timeliness_call (envConferenceDate : Option String)
    (events : List VivatechSource) :
    Except DateParseError (List TimelinessResult) :=
  let current_date := get_current_conference_date envConferenceDate
  Except.ok (events.map fun event =>
    let r := analyze_event_urgency event.text_chunk current_date
    ⟨event.id, r.1, r.2⟩)

/-- An HTTP response as the search tool observes it. -/
structure HttpResponse where
  status : Nat
  body : Json

/-- Outcome of a network send: transport failure or a response. -/
inductive HttpOutcome where
  | failed (msg : String)
  | ok (resp : HttpResponse)

/-- A request the client put on the wire. -/
structure ApiRequest where
  url : String
  body : Json

/-- Outcome of Client::builder().timeout(..).build(): construction can fail
(for environment reasons such as TLS backend initialization), independently
of the call's inputs, so the outcome is an explicit parameter. -/
inductive BuildOutcome where
  | failed (msg : String)
  | ok

/-- fn create_http_client: wrap a builder failure in the tool's error type,
as the source does. -/
def create_http_client (buildOutcome : BuildOutcome) : Except String Unit :=
  match buildOutcome with
  | BuildOutcome.failed e =>
    Except.error ("Failed to create HTTP client: " ++ e)
  | BuildOutcome.ok => Except.ok ()

/-- reqwest StatusCode::is_success: the 2xx range. -/
def is_success (status : Nat) : Bool :=
  200 ≤ status && status < 300

/-- fn make_api_request on a transport outcome: error on transport failure,
error on a non-success status, the response otherwise. -/
def make_api_request (outcome : HttpOutcome) : Except String HttpResponse :=
  match outcome with
  | HttpOutcome.failed e => Except.error ("HTTP request failed: " ++ e)
  | HttpOutcome.ok resp =>
    if is_success resp.status then Except.ok resp
    else Except.error ("API returned error status: " ++ toString resp.status)

/-- fn parse_api_response at type VivatechQueryResponse. -/
def parse_api_response (resp : HttpResponse) :
    Except String VivatechQueryResponse :=
  match deserVivatechQueryResponse resp.body with
  | Except.ok r => Except.ok r
  | Except.error e => Except.error ("Failed to parse JSON response: " ++ e)

/-- impl Tool for QueryVivatechAPI, fn call, with the environment and the
network made explicit: the VIVATECH_API_URL variable, the outcome of client
construction, and the single transport outcome the network would produce are
parameters, consulted in the source's order (client first, then URL, then
the request).  Besides the tool result, the list of requests actually put on
the wire is returned, so that the number of attempts is observable: it is
empty when client construction fails or the URL is missing, and a singleton
otherwise — the call never retries and holds no cache. -/
def query_vivatech_call (envApiUrl : Option String)
    (buildOutcome : BuildOutcome) (outcome : HttpOutcome) (query : String) :
    Except String (List VivatechSource) × List ApiRequest :=
  match create_http_client buildOutcome with
  | Except.error e => (Except.error e, [])
  | Except.ok _ =>
    let request_body := Json.obj [("query", Json.str query)]
    match envApiUrl with
    | none => (Except.error "VIVATECH_API_URL not found in environment", [])
    | some api_url =>
      let sent : List ApiRequest := [⟨api_url, request_body⟩]
      match make_api_request outcome with
      | Except.error e => (Except.error e, sent)
      | Except.ok response =>
        match parse_api_response response with
        | Except.error e => (Except.error e, sent)
        | Except.ok api_response => (Except.ok api_response.sources, sent)

/-! ## Auxiliary notions used only to state claims -/

/-- Substring containment on character lists (used to state the claims that
quantify over texts containing a given fragment). -/
def hasSubstringChars : List Char → List Char → Bool
  | [], pat => (matchLit pat []).isSome
  | c :: cs, pat => (matchLit pat (c :: cs)).isSome || hasSubstringChars cs pat

/-- Modelled from the spec (section 4.2 table): the urgency classification as
a total function of (hasDate, days_until) alone; the embedded
analyze_event_urgency is proved to factor through it. -/
def urgencyTableSpec : Option Int → ActionUrgency × String
  | none =>
    (ActionUrgency.Normal, "No specific date found - treating as normal priority.")
  | some days =>
    if days = 0 then
      (ActionUrgency.Immediate,
       "This event is happening TODAY - immediate action required!")
    else if days = 1 then
      (ActionUrgency.Soon,
       "This event is happening TOMORROW - plan accordingly.")
    else if days > 1 then
      (ActionUrgency.Normal,
       "This event is in " ++ toString days ++ " days - normal priority.")
    else
      (ActionUrgency.Normal, "This event has already passed.")

/-! ## Claims -/

/-- Claim C1: the urgency classification is a total function of (hasDate,
days_until) alone: for every event text and reference date,
analyze_event_urgency factors through the urgency table applied to the
optional day difference, yielding Immediate with the TODAY description at
0 days, Soon with the TOMORROW description at 1 day, Normal with the day
count above 1 day, Normal "already passed" below 0, and Normal "no specific
date found" when no date is resolved; no other input enters. -/
theorem urgency_total_function_of_days (text : String) (current_date : NaiveDate) :
    analyze_event_urgency text current_date =
      urgencyTableSpec ((extract_date_from_text text).map
        fun event_date => num_days event_date current_date) := by
  unfold analyze_event_urgency urgencyTableSpec
  cases extract_date_from_text text with
  | none => rfl
  | some event_date =>
    simp only [Option.map_some']
    by_cases h0 : num_days event_date current_date = 0
    · simp [h0]
    · by_cases h1 : num_days event_date current_date = 1
      · simp [h0, h1]
      · by_cases h2 : num_days event_date current_date > 1
        · have h3 : num_days event_date current_date > 0 := by omega
          simp [h0, h1, h2, h3]
        · have h3 : ¬ num_days event_date current_date > 0 := by omega
          simp [h0, h1, h2, h3]

/-- Claim C2: the assess-timeliness tool returns exactly one result per input
event, in input order, and the sequence of result source_ids equals the
sequence of input event ids (1:1, order-preserving). -/
theorem assess_timeliness_one_result_per_event (envConferenceDate : Option String)
    (events : List VivatechSource) :
    ∃ results, assess_timeliness_call envConferenceDate events = Except.ok results ∧
      results.length = events.length ∧
      results.map TimelinessResult.source_id = events.map VivatechSource.id := by
  refine ⟨_, rfl, ?_, ?_⟩
  · simp
  · simp [Function.comp]

/-- Claim C7: the assess-timeliness tool call never returns an error — its
body is Ok for every environment and event list — and absence of a parseable
date degrades to Normal urgency with the explanatory description instead of
failing. -/
theorem assess_timeliness_never_errors (envConferenceDate : Option String)
    (events : List VivatechSource) (text : String) (current_date : NaiveDate) :
    (∃ results, assess_timeliness_call envConferenceDate events =
        Except.ok results) ∧
    (extract_date_from_text text = none →
      analyze_event_urgency text current_date =
        (ActionUrgency.Normal,
         "No specific date found - treating as normal priority.")) := by
  constructor
  · exact ⟨_, rfl⟩
  · intro h
    unfold analyze_event_urgency
    rw [h]

/-- Witness for claim C7: a text with no date mention degrades to Normal, and
the call on it is Ok. -/
theorem assess_timeliness_never_errors_w :
    analyze_event_urgency "Keynote hall 2" ⟨2025, 6, 11⟩ =
      (ActionUrgency.Normal,
       "No specific date found - treating as normal priority.") :=
  (assess_timeliness_never_errors none [] "Keynote hall 2" ⟨2025, 6, 11⟩).2 rfl

/-- Claim C6: date construction combines the fixed year 2025 with the
extracted month and day and never clamps — whenever a date is constructed its
fields are exactly the requested ones — an invalid combination (June 31, or
day 0) yields no date, the text "June 31" resolves no date, and the
classifier then returns Normal with the no-date description. -/
theorem invalid_day_yields_no_date (y : Int) (m d : Nat) (current_date : NaiveDate) :
    ((fromYmdOpt y m d).all fun dt =>
        dt.year == y && dt.month == m && dt.day == d) = true ∧
    fromYmdOpt 2025 6 31 = none ∧
    fromYmdOpt 2025 6 0 = none ∧
    extract_date_from_text "June 31" = none ∧
    analyze_event_urgency "June 31" current_date =
      (ActionUrgency.Normal,
       "No specific date found - treating as normal priority.") := by
  refine ⟨?_, by decide, by decide, by decide, ?_⟩
  · unfold fromYmdOpt
    split
    · simp
    · rfl
  · unfold analyze_event_urgency
    have h : extract_date_from_text "June 31" = none := by decide
    rw [h]

/-- Claim C9: the reference date equals the configured override when it
parses as %Y-%m-%d and silently equals the built-in default June 11, 2025
when the value is absent or unparsable. -/
theorem reference_date_override_or_default (s : String) (d : NaiveDate) :
    (parseYmd s = some d → get_current_conference_date (some s) = d) ∧
    (parseYmd s = none →
      get_current_conference_date (some s) = ⟨2025, 6, 11⟩) ∧
    get_current_conference_date none = ⟨2025, 6, 11⟩ := by
  refine ⟨?_, ?_, rfl⟩
  · intro h
    show (match parseYmd s with
          | some date => date
          | none => defaultConferenceDate) = d
    rw [h]
  · intro h
    show (match parseYmd s with
          | some date => date
          | none => defaultConferenceDate) = ⟨2025, 6, 11⟩
    rw [h]
    rfl

/-- Witness for claim C9: a parsable override is taken verbatim (including a
leap day, and a signed year with more than four digits of room), while an
unparsable one — garbage, or five unsigned year digits, which the width-4 %Y
item refuses — silently falls back to June 11, 2025. -/
theorem reference_date_override_or_default_w :
    get_current_conference_date (some "2024-02-29") = ⟨2024, 2, 29⟩ ∧
    get_current_conference_date (some "+2024-05-06") = ⟨2024, 5, 6⟩ ∧
    get_current_conference_date (some "20255-01-01") = ⟨2025, 6, 11⟩ ∧
    get_current_conference_date (some "not a date") = ⟨2025, 6, 11⟩ :=
  ⟨(reference_date_override_or_default "2024-02-29" ⟨2024, 2, 29⟩).1 (by decide),
   (reference_date_override_or_default "+2024-05-06" ⟨2024, 5, 6⟩).1 (by decide),
   (reference_date_override_or_default "20255-01-01" ⟨2025, 6, 11⟩).2.1 (by decide),
   (reference_date_override_or_default "not a date" ⟨2025, 6, 11⟩).2.1 (by decide)⟩

/-- Counterexample to claim C3 as stated: in "June 31 30 May" pattern A does
yield a match (captures June, 31), yet pattern B is still consulted — the
extractor returns May 30, the date of pattern B's first match, because
pattern A's captures fail date construction. -/
theorem patternA_match_not_exclusive_cex :
    capturesA ("June 31 30 May").data = some ("June", "31") ∧
    extract_month_day_date "June" "31" = none ∧
    extract_date_from_text "June 31 30 May" = some ⟨2025, 5, 30⟩ ∧
    extract_day_month_date "30" "May" = some ⟨2025, 5, 30⟩ := by
  refine ⟨by decide, by decide, by decide, by decide⟩

/-- Claim C3 (amended): pattern A is tried first over the whole text and its
first match wins when its captures construct a valid date; pattern B is
consulted both when pattern A yields no match and when pattern A's first
match fails date construction, and then pattern B's own first match decides
the result; within each pattern only the leftmost occurrence is ever used. -/
theorem extract_tries_patternB_amended (t : String) :
    (∀ m d dt, capturesA t.data = some (m, d) →
        extract_month_day_date m d = some dt →
        extract_date_from_text t = some dt) ∧
    (∀ m d, capturesA t.data = some (m, d) →
        extract_month_day_date m d = none →
        extract_date_from_text t =
          match capturesB t.data with
          | some (d', m') => extract_day_month_date d' m'
          | none => none) ∧
    (capturesA t.data = none →
        extract_date_from_text t =
          match capturesB t.data with
          | some (d', m') => extract_day_month_date d' m'
          | none => none) := by
  unfold extract_date_from_text
  refine ⟨?_, ?_, ?_⟩
  · intro m d dt hA hC
    simp only [hA]
    rw [hC]
  · intro m d hA hC
    simp only [hA]
    rw [hC]
  · intro hA
    simp only [hA]

/-- Witness for claim C3 (amended): on "June 31 30 May" pattern A's match
fails date construction and the result is pattern B's. -/
theorem extract_tries_patternB_amended_w :
    extract_date_from_text "June 31 30 May" =
      match capturesB ("June 31 30 May").data with
      | some (d', m') => extract_day_month_date d' m'
      | none => none :=
  (extract_tries_patternB_amended "June 31 30 May").2.1 "June" "31"
    (by decide) (by decide)

/-- Counterexample to claim C4 as stated: "May 1 June 12" contains the
substring "June 12", yet the extractor resolves May 1, 2025 — the earlier
pattern-A occurrence wins. -/
theorem june12_substring_not_sufficient_cex :
    hasSubstringChars ("May 1 June 12").data ("June 12").data = true ∧
    extract_date_from_text "May 1 June 12" = some ⟨2025, 5, 1⟩ ∧
    (⟨2025, 5, 1⟩ : NaiveDate) ≠ ⟨2025, 6, 12⟩ := by
  refine ⟨by decide, by decide, by decide⟩

/-- Claim C4 (amended): for every text whose first pattern-A match captures
the month word "June" (exact case) and the day digits "12" — in particular
any text containing "June 12" with no earlier pattern-A occurrence — the
extractor resolves the fixed year 2025 with month 6 and day 12. -/
theorem june12_first_match_resolves (t : String)
    (h : capturesA t.data = some ("June", "12")) :
    extract_date_from_text t = some ⟨2025, 6, 12⟩ := by
  unfold extract_date_from_text
  simp only [h]
  rw [show extract_month_day_date "June" "12" = some ⟨2025, 6, 12⟩ from by decide]

/-- Witness for claim C4 (amended): a text whose only date mention is
"June 12" resolves to 2025-06-12. -/
theorem june12_first_match_resolves_w :
    extract_date_from_text "The keynote is on June 12" = some ⟨2025, 6, 12⟩ :=
  june12_first_match_resolves "The keynote is on June 12" (by decide)

/-- Counterexample to claim C5 as stated: "May 1 12th June" contains the
substring "12th June", yet the extractor resolves May 1, 2025 — not the
2025-06-12 that a text containing only "June 12" resolves. -/
theorem twelfthJune_substring_not_sufficient_cex :
    hasSubstringChars ("May 1 12th June").data ("12th June").data = true ∧
    extract_date_from_text "May 1 12th June" = some ⟨2025, 5, 1⟩ ∧
    extract_date_from_text "June 12" = some ⟨2025, 6, 12⟩ ∧
    (⟨2025, 5, 1⟩ : NaiveDate) ≠ ⟨2025, 6, 12⟩ := by
  refine ⟨by decide, by decide, by decide, by decide⟩

/-- Claim C5 (amended): for every text with no pattern-A match whose first
pattern-B match captures the day digits "12" and the month word "June" — in
particular "12th June" on its own — the extractor resolves exactly the date
it resolves for "June 12", namely 2025-06-12 (pattern-order independence for
equivalent dates). -/
theorem twelfthJune_first_match_resolves (t : String)
    (hA : capturesA t.data = none)
    (hB : capturesB t.data = some ("12", "June")) :
    extract_date_from_text t = extract_date_from_text "June 12" ∧
    extract_date_from_text t = some ⟨2025, 6, 12⟩ := by
  have h : extract_date_from_text t = some ⟨2025, 6, 12⟩ := by
    unfold extract_date_from_text
    simp only [hA]
    rw [hB]
    decide
  refine ⟨?_, h⟩
  rw [h]
  decide

/-- Witness for claim C5 (amended): "12th June" resolves identically to
"June 12". -/
theorem twelfthJune_first_match_resolves_w :
    extract_date_from_text "12th June" = extract_date_from_text "June 12" ∧
    extract_date_from_text "12th June" = some ⟨2025, 6, 12⟩ :=
  twelfthJune_first_match_resolves "12th June" (by decide) (by decide)

/-- Deserializing a source array is elementwise and in order; in particular
a successful parse yields exactly one source per array element. -/
theorem deserSourceList_length (elems : List Json) (srcs : List VivatechSource)
    (h : deserSourceList elems = Except.ok srcs) :
    srcs.length = elems.length := by
  induction elems generalizing srcs with
  | nil =>
    unfold deserSourceList at h
    cases h
    rfl
  | cons j js ih =>
    unfold deserSourceList at h
    cases hj : deserVivatechSource j with
    | error e => rw [hj] at h; cases h
    | ok s =>
      rw [hj] at h
      cases hr : deserSourceList js with
      | error e => rw [hr] at h; cases h
      | ok rest =>
        rw [hr] at h
        cases h
        simp [ih rest hr]

/-- Counterexample to claim C8 as stated: with the endpoint URL configured
and the network ready to deliver a 200 response whose body deserializes, a
client-construction failure still makes the call fail — with zero request
attempts — so the call neither makes exactly one attempt nor fails only in
the claim's four listed cases. -/
theorem client_build_failure_cex :
    query_vivatech_call (some "https://api.example.com")
        (BuildOutcome.failed "tls backend unavailable")
        (HttpOutcome.ok ⟨200, Json.obj
          [("answer", Json.str "a"),
           ("sources", Json.arr [Json.obj
             [("id", Json.str "s1"), ("text_chunk", Json.str "June 12 keynote")]]),
           ("metadata", Json.obj
             [("search_mode", Json.str "hybrid"),
              ("sources_found", Json.num (JNum.int 1))])]⟩) "ai" =
      (Except.error "Failed to create HTTP client: tls backend unavailable", []) ∧
    is_success 200 = true ∧
    deserVivatechQueryResponse (Json.obj
        [("answer", Json.str "a"),
         ("sources", Json.arr [Json.obj
           [("id", Json.str "s1"), ("text_chunk", Json.str "June 12 keynote")]]),
         ("metadata", Json.obj
           [("search_mode", Json.str "hybrid"),
            ("sources_found", Json.num (JNum.int 1))])]) =
      Except.ok ⟨"a", [⟨"s1", "", JNum.int 0, "June 12 keynote"⟩], ⟨"hybrid", 1⟩⟩ := by
  refine ⟨rfl, rfl, rfl⟩

/-- Claim C8 (amended): a search-tool call makes at most one request attempt
— none when client construction fails or the endpoint URL is unconfigured,
exactly one otherwise — with no retries and no cache (the call is a pure
function of its inputs), fails as an error exactly on client-construction
failure, missing URL, transport failure, non-2xx status, or a body that does
not deserialize, and otherwise returns the parsed sources — one per array
element of the body, in the order received. -/
theorem query_single_attempt_and_error_cases (envApiUrl : Option String)
    (buildOutcome : BuildOutcome) (outcome : HttpOutcome) (query : String) :
    (∀ msg, buildOutcome = BuildOutcome.failed msg →
      query_vivatech_call envApiUrl buildOutcome outcome query =
        (Except.error ("Failed to create HTTP client: " ++ msg), [])) ∧
    (buildOutcome = BuildOutcome.ok → envApiUrl = none →
      query_vivatech_call envApiUrl buildOutcome outcome query =
        (Except.error "VIVATECH_API_URL not found in environment", [])) ∧
    (∀ url, buildOutcome = BuildOutcome.ok → envApiUrl = some url →
      (query_vivatech_call envApiUrl buildOutcome outcome query).2 =
        [⟨url, Json.obj [("query", Json.str query)]⟩] ∧
      (∀ msg, outcome = HttpOutcome.failed msg →
        ∃ e, (query_vivatech_call envApiUrl buildOutcome outcome query).1 =
          Except.error e) ∧
      (∀ resp, outcome = HttpOutcome.ok resp → is_success resp.status = false →
        ∃ e, (query_vivatech_call envApiUrl buildOutcome outcome query).1 =
          Except.error e) ∧
      (∀ resp err, outcome = HttpOutcome.ok resp → is_success resp.status = true →
        deserVivatechQueryResponse resp.body = Except.error err →
        ∃ e, (query_vivatech_call envApiUrl buildOutcome outcome query).1 =
          Except.error e) ∧
      (∀ resp vr, outcome = HttpOutcome.ok resp → is_success resp.status = true →
        deserVivatechQueryResponse resp.body = Except.ok vr →
        (query_vivatech_call envApiUrl buildOutcome outcome query).1 =
          Except.ok vr.sources)) ∧
    (∀ elems srcs, deserSourceList elems = Except.ok srcs →
      srcs.length = elems.length) := by
  refine ⟨?_, ?_, ?_, deserSourceList_length⟩
  · rintro msg rfl
    rfl
  · rintro rfl rfl
    rfl
  · rintro url rfl rfl
    refine ⟨?_, ?_, ?_, ?_, ?_⟩
    · cases outcome with
      | failed msg => rfl
      | ok resp =>
        unfold query_vivatech_call create_http_client make_api_request
        cases hs : is_success resp.status with
        | false => simp [hs]
        | true =>
          simp only [hs, if_true]
          unfold parse_api_response
          cases hd : deserVivatechQueryResponse resp.body with
          | error e => simp [hd]
          | ok vr => simp [hd]
    · rintro msg rfl
      exact ⟨_, rfl⟩
    · rintro resp rfl hs
      unfold query_vivatech_call create_http_client make_api_request
      simp [hs]
    · rintro resp err rfl hs hd
      unfold query_vivatech_call create_http_client make_api_request
        parse_api_response
      simp [hs, hd]
    · rintro resp vr rfl hs hd
      unfold query_vivatech_call create_http_client make_api_request
        parse_api_response
      simp [hs, hd]

/-- Witness for claim C8 (amended): successful client construction, a
configured URL, a 200 response and a well-formed body return the parsed
source list. -/
theorem query_single_attempt_and_error_cases_w :
    (query_vivatech_call (some "https://api.example.com") BuildOutcome.ok
        (HttpOutcome.ok ⟨200, Json.obj
          [("answer", Json.str "a"),
           ("sources", Json.arr [Json.obj
             [("id", Json.str "s1"), ("text_chunk", Json.str "June 12 keynote")]]),
           ("metadata", Json.obj
             [("search_mode", Json.str "hybrid"),
              ("sources_found", Json.num (JNum.int 1))])]⟩) "ai").1 =
      Except.ok [⟨"s1", "", JNum.int 0, "June 12 keynote"⟩] :=
  ((query_single_attempt_and_error_cases (some "https://api.example.com")
      BuildOutcome.ok
      (HttpOutcome.ok ⟨200, Json.obj
        [("answer", Json.str "a"),
         ("sources", Json.arr [Json.obj
           [("id", Json.str "s1"), ("text_chunk", Json.str "June 12 keynote")]]),
         ("metadata", Json.obj
           [("search_mode", Json.str "hybrid"),
            ("sources_found", Json.num (JNum.int 1))])]⟩) "ai").2.2.1
    "https://api.example.com" rfl rfl).2.2.2.2
    ⟨200, Json.obj
      [("answer", Json.str "a"),
       ("sources", Json.arr [Json.obj
         [("id", Json.str "s1"), ("text_chunk", Json.str "June 12 keynote")]]),
       ("metadata", Json.obj
         [("search_mode", Json.str "hybrid"),
          ("sources_found", Json.num (JNum.int 1))])]⟩
    ⟨"a", [⟨"s1", "", JNum.int 0, "June 12 keynote"⟩], ⟨"hybrid", 1⟩⟩
    rfl rfl rfl

/-- Claim C10: deserializing the query response requires the unused answer
field and an unused metadata object with both search_mode and sources_found;
a body carrying only the sources list is rejected, and the search tool then
fails instead of returning the sources. -/
theorem response_requires_unused_fields (srcVal : Json) (ans mode : String)
    (url query : String) :
    (∃ e, deserVivatechQueryResponse (Json.obj [("sources", srcVal)]) =
        Except.error e) ∧
    (∃ e, deserVivatechQueryResponse
        (Json.obj [("answer", Json.str ans), ("sources", Json.arr [])]) =
        Except.error e) ∧
    (∃ e, deserVivatechMetadata (Json.obj [("search_mode", Json.str mode)]) =
        Except.error e) ∧
    (∃ e, deserVivatechMetadata
        (Json.obj [("sources_found", Json.num (JNum.int 7))]) =
        Except.error e) ∧
    (∀ buildOutcome : BuildOutcome,
      ∃ e, (query_vivatech_call (some url) buildOutcome
        (HttpOutcome.ok ⟨200, Json.obj [("sources", srcVal)]⟩) query).1 =
        Except.error e) := by
  refine ⟨⟨_, rfl⟩, ⟨_, rfl⟩, ⟨_, rfl⟩, ⟨_, rfl⟩, ?_⟩
  intro buildOutcome
  cases buildOutcome with
  | failed msg => exact ⟨_, rfl⟩
  | ok => exact ⟨_, rfl⟩

end Vivatech

